import Mathlib

/-!
Verification of the cross-cutting request infrastructure of the
fastapi-orgtrace backend: the transactional decorator, the audit-history
decorator, the per-request logging context, the SQL observation hooks
and the request-logging interceptor, shallowly embedded in Lean.

Python values are modelled by the inductive `PyVal`; attribute access is
lookup in the object's `__dict__` (an association list); exceptions are
modelled by `Except`; the per-request `contextvars` storage is modelled
by maps indexed by an execution-unit (task) identifier.
-/

namespace OrgTrace

/-- Shallow model of the Python values the decorators and hooks handle.
`obj` carries the instance dictionary (`__dict__`); `session` is an
opaque SQLAlchemy session handle. -/
inductive PyVal where
  | none
  | vInt (n : Int)
  | vStr (s : String)
  | vList (xs : List PyVal)
  | obj (attrs : List (String × PyVal))
  | session (id : Nat)

/-- Structural decidable equality for `PyVal` (spelled out because the
type nests `List PyVal`). -/
def PyVal.beq : PyVal → PyVal → Bool
  | .none, .none => true
  | .vInt a, .vInt b => a == b
  | .vStr a, .vStr b => a == b
  | .vList xs, .vList ys => beqList xs ys
  | .obj xs, .obj ys => beqAttrs xs ys
  | .session a, .session b => a == b
  | _, _ => false
where
  beqList : List PyVal → List PyVal → Bool
    | [], [] => true
    | x :: xs, y :: ys => PyVal.beq x y && beqList xs ys
    | _, _ => false
  beqAttrs : List (String × PyVal) → List (String × PyVal) → Bool
    | [], [] => true
    | (k, v) :: xs, (l, w) :: ys => k == l && PyVal.beq v w && beqAttrs xs ys
    | _, _ => false

instance : BEq PyVal := ⟨PyVal.beq⟩

/-- Python truthiness for the modelled values: `None`, `0`, the empty
string and the empty list are falsy; objects and sessions are truthy. -/
def truthy : PyVal → Bool
  | .none => false
  | .vInt n => n != 0
  | .vStr s => s != ""
  | .vList xs => !xs.isEmpty
  | .obj _ => true
  | .session _ => true

/-- Model of `v is None`. -/
def isNone : PyVal → Bool
  | .none => true
  | _ => false

/-- Attribute access against the instance dictionary: `getattr(v, name)`
when it succeeds, `none` when the attribute is absent (models the
`hasattr`/`getattr` pair used by the history provider). -/
def pyGetAttr (v : PyVal) (name : String) : Option PyVal :=
  match v with
  | .obj attrs => attrs.lookup name
  | _ => Option.none

/-- Model of `inspect.signature(func).bind_partial(*args, **kwargs).arguments`:
positional arguments are matched to the declared parameter names in
order, keyword arguments are added by name. -/
def bindArguments (paramNames : List String) (args : List PyVal)
    (kwargs : List (String × PyVal)) : List (String × PyVal) :=
  paramNames.zip args ++ kwargs

/-- Model of `bound.arguments.get(name)`: the bound value, or `None`
when the name was not bound. -/
def boundGet (paramNames : List String) (args : List PyVal)
    (kwargs : List (String × PyVal)) (name : String) : PyVal :=
  ((bindArguments paramNames args kwargs).lookup name).getD .none

/-! ### The transactional decorator (src/decorator/transaction.py) -/

/-- Collaborator calls observed while running a decorated function:
how often the wrapped function, `db.commit()` and `db.rollback()` ran. -/
structure TxCallLog where
  funcCalls : Nat
  commits : Nat
  rollbacks : Nat
deriving DecidableEq

/-- Outcome of a call through the `Transactional` wrapper: the wrapped
function's value, the contract `ValueError` for a missing session, or
the wrapped function's own exception re-raised. -/
inductive TxResult (E : Type) where
  | ok (v : PyVal)
  | valueError
  | raised (e : E)

/-- Shallow embedding of `Transactional(func)`'s `wrapper`: binds the
call arguments against the declared parameters, requires a non-`None`
value for the parameter named `db`, then runs the wrapped function
(whose outcome is the `funcResult` argument), committing on normal
return and rolling back and re-raising on exception. -/
def transactionalWrapper {E : Type} (paramNames : List String)
    (args : List PyVal) (kwargs : List (String × PyVal))
    (funcResult : Except E PyVal) : TxResult E × TxCallLog :=
  let db := boundGet paramNames args kwargs "db"
  if isNone db then
    (.valueError, ⟨0, 0, 0⟩)
  else
    match funcResult with
    | .ok r => (.ok r, ⟨1, 1, 0⟩)
    | .error e => (.raised e, ⟨1, 0, 1⟩)

/-! ### The history provider (src/provider/history_provider.py) -/

/-- The internal and derived fields that `HistoryProvider.clean_dict`
strips from an ORM object's `__dict__`. -/
def excludeFields : List String := ["_sa_instance_state", "children"]

/-- Shallow embedding of `HistoryProvider.clean_dict`: drop the excluded
bookkeeping fields from the snapshot dictionary. -/
def clean_dict (data : List (String × PyVal)) : List (String × PyVal) :=
  data.filter (fun kv => !(excludeFields.contains kv.1))

/-- Shallow embedding of `HistoryProvider.extract_entity_seq`: try the
keyword argument named `{entity}_seq`; if that is falsy and the name is
a declared parameter whose index is covered by the positional
arguments, take that positional; if still falsy, scan the positional
arguments for the first object exposing a `{entity}_seq` attribute. -/
def extract_entity_seq (entity : String) (args : List PyVal)
    (kwargs : List (String × PyVal)) (paramNames : List String) : PyVal :=
  let key := entity ++ "_seq"
  let e1 := (kwargs.lookup key).getD .none
  let e2 :=
    if !truthy e1 && paramNames.contains key then
      let idx := paramNames.findIdx (· == key)
      if idx < args.length then args.getD idx .none else e1
    else e1
  if !truthy e2 then
    match args.find? (fun a => (pyGetAttr a key).isSome) with
    | some a => (pyGetAttr a key).getD e2
    | Option.none => e2
  else e2

/-! ### Sorted-key JSON serialization (json.dumps(..., default=str, sort_keys=True)) -/

/-- JSON rendering of one modelled value. String escaping is omitted
(the modelled field values contain no characters needing escapes), and
objects and sessions, which are not JSON serializable, go through the
`default=str` stringification, modelled by fixed placeholder reprs. -/
def jsonStr : PyVal → String
  | .none => "null"
  | .vInt n => toString n
  | .vStr s => "\"" ++ s ++ "\""
  | .vList xs => "[" ++ String.intercalate ", " (jsonStrList xs) ++ "]"
  | .obj _ => "\"<object>\""
  | .session _ => "\"<session>\""
where
  jsonStrList : List PyVal → List String
    | [] => []
    | x :: xs => jsonStr x :: jsonStrList xs

/-- String order used to sort JSON keys, via the character code lists. -/
def strLt (a b : String) : Bool :=
  decide (a.toList < b.toList)

/-- Insert one key/value pair into a key-sorted association list. -/
def insertSorted (kv : String × PyVal) :
    List (String × PyVal) → List (String × PyVal)
  | [] => [kv]
  | x :: xs =>
    if strLt x.1 kv.1 then x :: insertSorted kv xs else kv :: x :: xs

/-- Sort an association list by key (the keys of a Python `__dict__`
are unique, so stability is irrelevant). -/
def sortByKey (l : List (String × PyVal)) : List (String × PyVal) :=
  l.foldr insertSorted []

/-- Shallow embedding of
`json.dumps(d, default=str, sort_keys=True)` on a dictionary: keys in
sorted order, Python's default `", "` / `": "` separators. -/
def jsonDumpsSorted (d : List (String × PyVal)) : String :=
  "\x7b" ++
    String.intercalate ", "
      ((sortByKey d).map (fun kv => "\"" ++ kv.1 ++ "\": " ++ jsonStr kv.2)) ++
  "\x7d"

/-! ### The audit-history decorator (src/decorator/history.py) -/

/-- The audit record built in step 6 of the history wrapper (the
`{entity.capitalize()}HistoryDomain` constructor arguments). -/
structure HistoryRecord where
  entitySeq : PyVal
  actionType : String
  beforeValue : Option String
  afterValue : Option String
  username : PyVal
  createdAt : String

/-- Collaborator calls observed while running a history-decorated
function: wrapped-function calls, `get_{entity}_by_seq` repository
lookups, and `save_history` writes. Every repository and history call
goes through the injected session, so these counters also witness that
no session operation ran. -/
structure HistCallLog where
  funcCalls : Nat
  repoGetCalls : Nat
  historySaves : Nat
deriving DecidableEq

/-- Outcome of a call through the `History(entity, action)` wrapper. -/
inductive HistErr (E : Type) where
  | valueError
  | attrError
  | raised (e : E)

/-- The collaborators the history wrapper consumes: the per-entity
repository lookup `get_{entity}_by_seq(db, seq)` (returning the found
entity's `__dict__`, or nothing), the wrapped function's outcome, and
the `TimeProvider.get_kst_now()` timestamp. -/
structure HistEnv (E : Type) where
  repoGet : PyVal → Option (List (String × PyVal))
  funcResult : Except E PyVal
  nowKst : String

/-- Shallow embedding of `History(entity, action)`'s `wrapper`:
requires the bound `db` session, extracts the target identifier,
fetches the before-state for non-INSERT actions with a truthy
identifier, runs the wrapped function, snapshots the after-state (for
non-DELETE actions, from the returned object's `__dict__`, taking the
target id from its `seq` attribute), serializes both snapshots (a
missing or empty snapshot dictionary serializes to null), and persists
one history record. -/
def historyWrapper {E : Type} (entity action : String)
    (paramNames : List String) (args : List PyVal)
    (kwargs : List (String × PyVal)) (env : HistEnv E) :
    Except (HistErr E) (PyVal × HistoryRecord) × HistCallLog :=
  let db := boundGet paramNames args kwargs "db"
  if isNone db then
    (.error .valueError, ⟨0, 0, 0⟩)
  else
    let username := (kwargs.lookup "username").getD .none
    let entitySeq := extract_entity_seq entity args kwargs paramNames
    let fetch := action != "INSERT" && truthy entitySeq
    let beforeDict : Option (List (String × PyVal)) :=
      if fetch then (env.repoGet entitySeq).map clean_dict else Option.none
    let repoCalls := if fetch then 1 else 0
    match env.funcResult with
    | .error e => (.error (.raised e), ⟨1, repoCalls, 0⟩)
    | .ok result =>
      let afterTarget : Except (HistErr E) (Option (List (String × PyVal)) × PyVal) :=
        if action == "DELETE" then .ok (Option.none, entitySeq)
        else
          match result with
          | .obj attrs =>
            match attrs.lookup "seq" with
            | some sv => .ok (some (clean_dict attrs), sv)
            | Option.none => .error .attrError
          | _ => .error .attrError
      match afterTarget with
      | .error er => (.error er, ⟨1, repoCalls, 0⟩)
      | .ok (afterDict, targetSeq) =>
        let serialize : Option (List (String × PyVal)) → Option String :=
          fun d => match d with
            | some l => if l.isEmpty then Option.none else some (jsonDumpsSorted l)
            | Option.none => Option.none
        let record : HistoryRecord :=
          ⟨targetSeq, action, serialize beforeDict, serialize afterDict,
            username, env.nowKst⟩
        (.ok (result, record), ⟨1, repoCalls, 1⟩)

/-- Extract the persisted audit record from a history-wrapper outcome. -/
def recordOf {E : Type}
    (r : Except (HistErr E) (PyVal × HistoryRecord) × HistCallLog) :
    Option HistoryRecord :=
  match r.1 with
  | .ok p => some p.2
  | .error _ => Option.none

/-! ### The structured logging adapter (src/logging/extensions/structured_logging_adapter.py) -/

/-- Trace ids are character lists (uuid strings and their 8-character
prefixes). -/
abbrev TraceId := List Char

/-- State of one `StructuredLoggingAdapter` instance: the underlying
logger's name, the trace id fixed at construction, the accumulated SQL
log buffer, the request fields set by `start_structured`, and the
pending COMMIT/ROLLBACK marker. -/
structure Adapter where
  loggerName : String
  traceId : TraceId
  sqlLogs : List (String × PyVal)
  method : String
  path : String
  handler : String
  pendingTx : Option String

/-- Embedding of `StructuredLoggingAdapter.__init__(logger, trace_id)`. -/
def mkAdapter (loggerName : String) (traceId : TraceId) : Adapter :=
  ⟨loggerName, traceId, [], "", "", "", Option.none⟩

/-- Embedding of `clone_with_logger`: same trace id and request fields
on a fresh adapter over the new logger (the SQL buffer and pending
transaction marker start empty). -/
def clone_with_logger (a : Adapter) (newLoggerName : String) : Adapter :=
  ⟨newLoggerName, a.traceId, [], a.method, a.path, a.handler, Option.none⟩

/-- Embedding of `start_structured`: records method, path and handler
(an empty handler name falls back to "unnamed_handler"). -/
def start_structured (a : Adapter) (method path handler : String) : Adapter :=
  { a with method := method, path := path,
           handler := if handler == "" then "unnamed_handler" else handler }

/-- Embedding of `sql_structured`: append one (query, params) entry to
the adapter's SQL buffer. -/
def sql_structured (a : Adapter) (query : String) (params : PyVal) : Adapter :=
  { a with sqlLogs := a.sqlLogs ++ [(query, params)] }

/-- The structured log event assembled by `build_extra`. -/
structure LogEvent where
  traceId : TraceId
  logType : String
  method : String
  path : String
  handler : String
  statusCode : Option Nat
  durationMs : Option ℚ
  time : String
  logMessage : Option String
  sql : Option (List (String × PyVal))

/-- Embedding of `build_extra`: stamp the adapter's trace id and
request fields onto the event. -/
def build_extra (a : Adapter) (logType : String) (statusCode : Option Nat)
    (durationMs : Option ℚ) (message : Option String)
    (sql : Option (List (String × PyVal))) (time : String) : LogEvent :=
  ⟨a.traceId, logType, a.method, a.path, a.handler,
    statusCode, durationMs, time, message, sql⟩

/-- One log emission: which logger received the event, and the event. -/
structure Emission where
  loggerName : String
  event : LogEvent

/-- Embedding of `slow_sql_structured`: one immediate SLOW_QUERY event
through the adapter's logger, carrying the elapsed milliseconds and the
single (query, params) pair. -/
def slow_sql_structured (a : Adapter) (query : String) (params : PyVal)
    (elapsed : ℚ) (now : String) : Emission :=
  ⟨a.loggerName,
    build_extra a "SLOW_QUERY" Option.none (some elapsed) Option.none
      (some [(query, params)]) now⟩

/-- Embedding of `end_structured`: the consolidated terminal event
(emitted with `log_type="START"` in the source) carrying status,
duration and the full SQL buffer, followed by the pending
COMMIT/ROLLBACK event when one is marked; the marker is cleared. -/
def end_structured (a : Adapter) (statusCode : Nat) (durationMs : ℚ)
    (now : String) : Emission × Option Emission × Adapter :=
  let main : Emission :=
    ⟨a.loggerName,
      build_extra a "START" (some statusCode) (some durationMs) Option.none
        (some a.sqlLogs) now⟩
  match a.pendingTx with
  | some tx =>
    let msg := if tx == "COMMIT" then "✅ COMMIT" else "⛔️ ROLLBACK"
    (main,
      some ⟨a.loggerName,
        build_extra a tx Option.none Option.none (some msg) Option.none now⟩,
      { a with pendingTx := Option.none })
  | Option.none => (main, Option.none, a)

/-! ### The per-request logging context (src/logging/context/request_logging_context.py) -/

/-- Identifier of a concurrently-executing unit (the task serving one
request). -/
abbrev TaskId := Nat

/-- Point update of a task-indexed map (the effect of
`ContextVar.set` in the currently-running task, and of in-place
mutation of the object a task's slot references). -/
def updateAt {α : Type} (f : TaskId → α) (t : TaskId) (v : α) : TaskId → α :=
  fun u => if u = t then v else f u

/-- State of the three `ContextVar`s of `RequestLoggingContext`, as
task-local slots: each concurrently-executing task sees only its own
entry. -/
structure ContextState where
  loggerVar : TaskId → Option Adapter
  slowLoggerVar : TaskId → Option Adapter
  traceIdVar : TaskId → Option TraceId

namespace RequestLoggingContext

/-- Embedding of `RequestLoggingContext.set(logger, trace_id=None)` as
executed by task `t`: installs the logger and, when no trace id is
passed, a freshly generated uuid (`freshUuid`). -/
def set (s : ContextState) (t : TaskId) (logger : Adapter)
    (traceArg : Option TraceId) (freshUuid : TraceId) : ContextState :=
  let tid := traceArg.getD freshUuid
  { s with loggerVar := updateAt s.loggerVar t (some logger),
           traceIdVar := updateAt s.traceIdVar t (some tid) }

/-- Embedding of `RequestLoggingContext.set_slow(logger, trace_id=None)`
as executed by task `t`. -/
def set_slow (s : ContextState) (t : TaskId) (logger : Adapter)
    (traceArg : Option TraceId) (freshUuid : TraceId) : ContextState :=
  let tid := traceArg.getD freshUuid
  { s with slowLoggerVar := updateAt s.slowLoggerVar t (some logger),
           traceIdVar := updateAt s.traceIdVar t (some tid) }

/-- Embedding of `RequestLoggingContext.get()` in task `t`; `none`
models the `LookupError` of an unset `ContextVar`. -/
def get (s : ContextState) (t : TaskId) : Option Adapter :=
  s.loggerVar t

/-- Embedding of `RequestLoggingContext.get_slow()` in task `t`. -/
def get_slow (s : ContextState) (t : TaskId) : Option Adapter :=
  s.slowLoggerVar t

/-- Embedding of `RequestLoggingContext.get_trace_id()` in task `t`:
the stored trace id, or the sentinel string "None" when unset. -/
def get_trace_id (s : ContextState) (t : TaskId) : TraceId :=
  (s.traceIdVar t).getD "None".toList

/-- Embedding of `RequestLoggingContext.clear()` as executed by task
`t`: installs a default-logger adapter built on a fresh 8-character
trace id (the slow-logger slot is left untouched by the source). -/
def clear (s : ContextState) (t : TaskId) (freshUuid : TraceId) : ContextState :=
  let tid := freshUuid.take 8
  { s with loggerVar := updateAt s.loggerVar t (some (mkAdapter "default" tid)),
           traceIdVar := updateAt s.traceIdVar t (some tid) }

end RequestLoggingContext

/-- One write operation on the per-request context, tagged with the
values it installs (fresh uuids are supplied by the caller of the
model). `mutate` models in-place mutation of the adapter object a
task's slot references (e.g. buffering by the SQL hooks). -/
inductive CtxOp where
  | set (logger : Adapter) (traceArg : Option TraceId) (freshUuid : TraceId)
  | setSlow (logger : Adapter) (traceArg : Option TraceId) (freshUuid : TraceId)
  | clear (freshUuid : TraceId)
  | mutate (f : Option Adapter → Option Adapter)

/-- Apply one context operation as executed by task `t`. -/
def applyCtxOp (s : ContextState) (t : TaskId) : CtxOp → ContextState
  | .set lg tr fresh => RequestLoggingContext.set s t lg tr fresh
  | .setSlow lg tr fresh => RequestLoggingContext.set_slow s t lg tr fresh
  | .clear fresh => RequestLoggingContext.clear s t fresh
  | .mutate f => { s with loggerVar := updateAt s.loggerVar t (f (s.loggerVar t)) }

/-- Run a sequence of context operations, each tagged with the task
that executes it. -/
def runCtxOps (s : ContextState) (ops : List (TaskId × CtxOp)) : ContextState :=
  ops.foldl (fun st p => applyCtxOp st p.1 p.2) s

/-! ### The SQL observation hooks (src/logging/extensions/sql_query_logging.py) -/

/-- The configured slow-query threshold default
(`Settings.SLOW_QUERY_THRESHOLD: float = 2.0`), in seconds. -/
def SLOW_QUERY_THRESHOLD_default : ℚ := 2

/-- Python's `round(x, 2)`, modelled on the rationals as rounding to
the nearest hundredth (ties, which Python resolves to even, do not
arise in the claims). -/
def round2 (x : ℚ) : ℚ :=
  (⌊x * 100 + 1 / 2⌋ : ℚ) / 100

/-- The parameter sets iterated by the `executemany` branch of the
before-execute hook; the driver passes a sequence of parameter sets
there, modelled by `vList`. -/
def paramSets : PyVal → List PyVal
  | .vList ps => ps
  | _ => []

/-- One statement execution as seen by the cursor hooks. -/
structure SqlEvent where
  stmt : String
  params : PyVal
  executemany : Bool

/-- The entries the before-execute hook appends to the buffer for one
execution: one per parameter set under `executemany`, else a single
(statement, parameters) pair. -/
def entriesOf (ev : SqlEvent) : List (String × PyVal) :=
  if ev.executemany then (paramSets ev.params).map (fun p => (ev.stmt, p))
  else [(ev.stmt, ev.params)]

/-- All entries buffered for a list of executions. -/
def bufferedEntries (evs : List SqlEvent) : List (String × PyVal) :=
  (evs.map entriesOf).flatten

/-- The buffering performed on the context's adapter for one execution:
one `sql_structured` append per parameter set under `executemany`, else
a single append. -/
def bufferInto (lg : Adapter) (ev : SqlEvent) : Adapter :=
  if ev.executemany then
    (paramSets ev.params).foldl (fun l p => sql_structured l ev.stmt p) lg
  else sql_structured lg ev.stmt ev.params

/-- Embedding of the buffering in `SqlQueryLogging.before_cursor_execute`
as run by task `t`: append the execution's entries to the adapter
installed in the request context; when no context is installed the
`LookupError` is caught and nothing is buffered (the in-place mutation
of the shared adapter is modelled by updating the task's slot). -/
def before_cursor_execute (s : ContextState) (t : TaskId) (ev : SqlEvent) :
    ContextState :=
  match RequestLoggingContext.get s t with
  | Option.none => s
  | some lg =>
    { s with loggerVar := updateAt s.loggerVar t (some (bufferInto lg ev)) }

/-- Embedding of `SqlQueryLogging._log_slow_query` as run by task `t`:
emit through the context's slow logger, or, when the `LookupError`
fires, through an ad hoc fallback adapter on the dedicated
"slow_query" logger with trace id "unknown". -/
def log_slow_query (s : ContextState) (t : TaskId) (stmt : String)
    (params : PyVal) (durationMs : ℚ) (now : String) : Emission :=
  match RequestLoggingContext.get_slow s t with
  | some sl => slow_sql_structured sl stmt params durationMs now
  | Option.none =>
    slow_sql_structured (mkAdapter "slow_query" "unknown".toList)
      stmt params durationMs now

/-- Embedding of `SqlQueryLogging.after_cursor_execute` as run by task
`t`: elapsed = now − recorded start (a missing start timestamp reads as
now, i.e. zero elapsed); at or above the threshold, exactly one
slow-query emission with the elapsed milliseconds rounded to two
decimal places; below it, none. -/
def after_cursor_execute (s : ContextState) (t : TaskId) (slowThreshold : ℚ)
    (queryStart : Option ℚ) (now : ℚ) (stmt : String) (params : PyVal)
    (nowStr : String) : List Emission :=
  let duration := now - queryStart.getD now
  if slowThreshold ≤ duration then
    [log_slow_query s t stmt params (round2 (duration * 1000)) nowStr]
  else []

/-! ### The request-logging interceptor (src/logging/logging_route_for_request_response.py) -/

/-- The observable outcome of a successfully handled request: the
response status, the `X-Trace-Id` response header value, the terminal
consolidated emission and the optional deferred COMMIT/ROLLBACK
emission. -/
structure HandlerOut where
  statusCode : Nat
  headerTraceId : TraceId
  endEmission : Emission
  txEmission : Option Emission

/-- Shallow embedding of `LoggingRouteForRequestResponse`'s
`custom_handler` for one request served by task `t`. `gen` is the
stream of uuid strings produced by successive `uuid.uuid4()` calls
(call 0 at request entry, calls 1 and 2 inside `set` and `set_slow`);
`domain` and `handlerName` are the results of the
`LoggingRouterProvider` path/endpoint introspection; `sqlExec` is the
sequence of statements the wrapped handler executes through the
before-execute hook; `outcome` is the original route handler's result
(a response status code, or an exception, which is re-raised with no
header set and no terminal log emitted). -/
def custom_handler {E : Type} (s0 : ContextState) (t : TaskId)
    (gen : Nat → TraceId) (t0 t1 : ℚ) (nowStr : String)
    (method path domain handlerName : String) (sqlExec : List SqlEvent)
    (outcome : Except E Nat) : Except E HandlerOut × ContextState :=
  let trace := (gen 0).take 8
  let logger := mkAdapter domain trace
  let slowLogger := clone_with_logger logger "slow_query"
  let s1 := RequestLoggingContext.set s0 t logger Option.none (gen 1)
  let s2 := RequestLoggingContext.set_slow s1 t slowLogger Option.none (gen 2)
  let logger := start_structured logger method path handlerName
  let slowLogger := start_structured slowLogger method path handlerName
  -- start_structured mutates the shared adapter objects the context
  -- slots reference; modelled by refreshing both slots.
  let s3 : ContextState :=
    { s2 with loggerVar := updateAt s2.loggerVar t (some logger),
              slowLoggerVar := updateAt s2.slowLoggerVar t (some slowLogger) }
  let s4 := sqlExec.foldl (fun st ev => before_cursor_execute st t ev) s3
  match outcome with
  | .error e => (.error e, s4)
  | .ok statusCode =>
    let duration := (t1 - t0) * 1000
    -- the local `logger` variable aliases the adapter stored in the
    -- context slot, which accumulated the hook's buffering; the slot is
    -- occupied here, so the fallback of `getD` is never read.
    let lgNow := (RequestLoggingContext.get s4 t).getD logger
    let (endEm, txEm, lgAfter) :=
      end_structured lgNow statusCode (round2 duration) nowStr
    let s5 : ContextState :=
      { s4 with loggerVar := updateAt s4.loggerVar t (some lgAfter) }
    (.ok ⟨statusCode, trace, endEm, txEm⟩, s5)

/-! ### Auxiliary definitions used by the statements -/

/-- The identifier candidates of the spec's three-step resolution
order: the keyword argument `{entity}_seq`, the positional argument at
the declared index of `{entity}_seq` (when covered), and the
`{entity}_seq` attribute of the first positional argument exposing
one. -/
def seqCandidates (entity : String) (args : List PyVal)
    (kwargs : List (String × PyVal)) (paramNames : List String) : List PyVal :=
  let key := entity ++ "_seq"
  ((kwargs.lookup key).getD .none) ::
  ((if paramNames.contains key ∧ paramNames.findIdx (· == key) < args.length
    then [args.getD (paramNames.findIdx (· == key)) .none] else []) ++
   (match args.find? (fun a => (pyGetAttr a key).isSome) with
    | some a => [(pyGetAttr a key).getD .none]
    | Option.none => []))

/-- Modelled from the spec: the identifier resolution as the spec words
it — try the keyword argument, then the declared positional, then the
attribute scan, and let the first match win (used only to compare
against the source's `extract_entity_seq`). -/
def extract_entity_seq_spec (entity : String) (args : List PyVal)
    (kwargs : List (String × PyVal)) (paramNames : List String) : Option PyVal :=
  let key := entity ++ "_seq"
  (kwargs.lookup key) <|>
  (if paramNames.contains key ∧ paramNames.findIdx (· == key) < args.length
   then some (args.getD (paramNames.findIdx (· == key)) .none) else Option.none) <|>
  ((args.find? (fun a => (pyGetAttr a key).isSome)).bind (fun a => pyGetAttr a key))

/-- An empty three-slot context (no request installed in any task). -/
def sampleContext : ContextState :=
  ⟨fun _ => Option.none, fun _ => Option.none, fun _ => Option.none⟩

/-- A fixed stream of 36-character uuid strings for concrete runs. -/
def sampleGen : Nat → TraceId :=
  fun _ => "0123456789abcdefghijklmnopqrstuvwxyz".toList

/-! ## Theorems -/

/-- A dictionary with a `seq` entry stays non-empty after the excluded
fields are stripped (the `seq` column is not an excluded field). -/
theorem clean_dict_isEmpty_false_of_lookup_seq {attrs : List (String × PyVal)}
    {sv : PyVal} (h : attrs.lookup "seq" = some sv) :
    (clean_dict attrs).isEmpty = false := by
  induction attrs with
  | nil => simp [List.lookup] at h
  | cons hd tl ih =>
    rcases hd with ⟨k, v⟩
    rw [List.lookup] at h
    cases hbeq : ("seq" == k) <;> rw [hbeq] at h
    · have ih2 := ih h
      rw [clean_dict, List.filter]
      cases hp : (!(excludeFields.contains k))
      · exact ih2
      · simp
    · have hk : "seq" = k := by simpa using hbeq
      subst hk
      rw [clean_dict, List.filter]
      simp [excludeFields]

/-- C3: a function wrapped by the transactional decorator raises the
contract `ValueError` without calling the wrapped function when no
session is bound to the parameter named "db"; when a session is
present, a normal return is committed and returned unchanged, and an
exception triggers a rollback and is re-raised unchanged. -/
theorem transactional_contract {E : Type} (paramNames : List String)
    (args : List PyVal) (kwargs : List (String × PyVal))
    (funcResult : Except E PyVal) :
    (boundGet paramNames args kwargs "db" = PyVal.none →
      transactionalWrapper paramNames args kwargs funcResult =
        (TxResult.valueError, ⟨0, 0, 0⟩)) ∧
    (∀ sid : Nat, boundGet paramNames args kwargs "db" = PyVal.session sid →
      (∀ v : PyVal, funcResult = Except.ok v →
        transactionalWrapper paramNames args kwargs funcResult =
          (TxResult.ok v, ⟨1, 1, 0⟩)) ∧
      (∀ e : E, funcResult = Except.error e →
        transactionalWrapper paramNames args kwargs funcResult =
          (TxResult.raised e, ⟨1, 0, 1⟩))) := by
  refine ⟨fun h => ?_, fun sid h => ⟨fun v hv => ?_, fun e he => ?_⟩⟩
  · simp [transactionalWrapper, h, isNone]
  · subst hv; simp [transactionalWrapper, h, isNone]
  · subst he; simp [transactionalWrapper, h, isNone]

/-- Concrete run of the transactional contract: a bound session and a
normal return commit once and return the value. -/
theorem transactional_contract_witness :
    transactionalWrapper (E := Unit) ["db"] [PyVal.session 1] []
        (Except.ok (PyVal.vInt 5)) =
      (TxResult.ok (PyVal.vInt 5), ⟨1, 1, 0⟩) :=
  ((transactional_contract (E := Unit) ["db"] [PyVal.session 1] []
      (Except.ok (PyVal.vInt 5))).2 1 rfl).1 (PyVal.vInt 5) rfl

/-- C4: a history-decorated call with no bound session raises the
contract `ValueError` with zero wrapped-function calls, zero repository
lookups and zero history writes (hence no session operation at all). -/
theorem history_missing_session_no_side_effects {E : Type}
    (entity action : String) (paramNames : List String) (args : List PyVal)
    (kwargs : List (String × PyVal)) (env : HistEnv E)
    (h : boundGet paramNames args kwargs "db" = PyVal.none) :
    historyWrapper entity action paramNames args kwargs env =
      (Except.error HistErr.valueError, ⟨0, 0, 0⟩) := by
  simp [historyWrapper, h, isNone]

/-- Concrete run of the missing-session contract: no collaborator was
invoked. -/
theorem history_missing_session_no_side_effects_witness :
    historyWrapper (E := Unit) "employee" "DELETE" ["db", "employee_seq"] [] []
        ⟨fun _ => Option.none, Except.ok PyVal.none, "ts"⟩ =
      (Except.error HistErr.valueError, ⟨0, 0, 0⟩) :=
  history_missing_session_no_side_effects "employee" "DELETE"
    ["db", "employee_seq"] [] [] ⟨fun _ => Option.none, Except.ok PyVal.none, "ts"⟩ rfl

/-- C5: an INSERT-audited call that completes persists a record with
null before-value and no before-state fetch, after-value the sorted-key
JSON of the cleaned shallow snapshot of the returned object, and the
target id read from the returned object's `seq` field. -/
theorem history_insert_record {E : Type} (entity : String)
    (paramNames : List String) (args : List PyVal)
    (kwargs : List (String × PyVal))
    (repoGet : PyVal → Option (List (String × PyVal))) (nowKst : String)
    (attrs : List (String × PyVal)) (sv : PyVal) (sid : Nat)
    (hdb : boundGet paramNames args kwargs "db" = PyVal.session sid)
    (hseq : attrs.lookup "seq" = some sv) :
    historyWrapper (E := E) entity "INSERT" paramNames args kwargs
        ⟨repoGet, Except.ok (PyVal.obj attrs), nowKst⟩ =
      (Except.ok (PyVal.obj attrs,
        ⟨sv, "INSERT", Option.none, some (jsonDumpsSorted (clean_dict attrs)),
          (kwargs.lookup "username").getD .none, nowKst⟩),
       ⟨1, 0, 1⟩) := by
  have hne := clean_dict_isEmpty_false_of_lookup_seq hseq
  simp [historyWrapper, hdb, isNone, hseq, hne]

/-- Concrete run of the INSERT audit: the persisted after-value is the
sorted-key JSON of the cleaned snapshot, the before-value is null. -/
theorem history_insert_record_witness :
    historyWrapper (E := Unit) "employee" "INSERT" ["db", "request"]
        [PyVal.session 1, PyVal.obj [("name", PyVal.vStr "kim")]] []
        ⟨fun _ => Option.none,
          Except.ok (PyVal.obj [("seq", PyVal.vInt 10), ("name", PyVal.vStr "kim"),
            ("_sa_instance_state", PyVal.vStr "st")]), "ts"⟩ =
      (Except.ok (PyVal.obj [("seq", PyVal.vInt 10), ("name", PyVal.vStr "kim"),
          ("_sa_instance_state", PyVal.vStr "st")],
        ⟨PyVal.vInt 10, "INSERT", Option.none,
          some "\x7b\"name\": \"kim\", \"seq\": 10\x7d", PyVal.none, "ts"⟩),
       ⟨1, 0, 1⟩) :=
  history_insert_record "employee" ["db", "request"]
    [PyVal.session 1, PyVal.obj [("name", PyVal.vStr "kim")]] []
    (fun _ => Option.none) "ts"
    [("seq", PyVal.vInt 10), ("name", PyVal.vStr "kim"),
      ("_sa_instance_state", PyVal.vStr "st")] (PyVal.vInt 10) 1 rfl rfl

/-- C6 counterexample: a DELETE-audited call whose resolved identifier
is 5 and whose pre-deletion fetch returns an entity carrying only
excluded bookkeeping fields persists before_value = null, not the JSON
of the (empty) snapshot, which serializes to "{}". -/
theorem history_delete_snapshot_counterexample :
    (recordOf (historyWrapper (E := Unit) "employee" "DELETE"
        ["db", "employee_seq"] [PyVal.session 1, PyVal.vInt 5] []
        ⟨fun _ => some [("_sa_instance_state", PyVal.vStr "st"),
            ("children", PyVal.vList [])],
          Except.ok PyVal.none, "ts"⟩)).map (fun rc => rc.beforeValue) =
      some Option.none ∧
    jsonDumpsSorted (clean_dict [("_sa_instance_state", PyVal.vStr "st"),
        ("children", PyVal.vList [])]) = "\x7b\x7d" ∧
    (Option.none : Option String) ≠ some "\x7b\x7d" := by
  refine ⟨rfl, rfl, by simp⟩

/-- C6 (amended): a DELETE-audited call that completes with a truthy
resolved identifier persists after_value = null and the identifier
extracted from the call arguments (never one from the return value);
before_value is the sorted-key JSON of the cleaned pre-deletion
snapshot when the fetch found an entity and the cleaned snapshot is
non-empty, and null when the fetch found nothing or the snapshot is
empty. -/
theorem history_delete_record {E : Type} (entity : String)
    (paramNames : List String) (args : List PyVal)
    (kwargs : List (String × PyVal))
    (repoGet : PyVal → Option (List (String × PyVal))) (nowKst : String)
    (r : PyVal) (sid : Nat)
    (hdb : boundGet paramNames args kwargs "db" = PyVal.session sid)
    (hseq : truthy (extract_entity_seq entity args kwargs paramNames) = true) :
    historyWrapper (E := E) entity "DELETE" paramNames args kwargs
        ⟨repoGet, Except.ok r, nowKst⟩ =
      (Except.ok (r,
        ⟨extract_entity_seq entity args kwargs paramNames, "DELETE",
          (match repoGet (extract_entity_seq entity args kwargs paramNames) with
           | some attrs =>
             if (clean_dict attrs).isEmpty then Option.none
             else some (jsonDumpsSorted (clean_dict attrs))
           | Option.none => Option.none),
          Option.none,
          (kwargs.lookup "username").getD .none, nowKst⟩),
       ⟨1, 1, 1⟩) := by
  cases h : repoGet (extract_entity_seq entity args kwargs paramNames) with
  | none => simp [historyWrapper, hdb, isNone, hseq, h]
  | some attrs => simp [historyWrapper, hdb, isNone, hseq, h]

/-- Concrete run of the amended DELETE audit: before-value is the JSON
of the fetched snapshot, after-value is null, and the target id is the
one passed in the call although the wrapped function returned nothing. -/
theorem history_delete_record_witness :
    historyWrapper (E := Unit) "employee" "DELETE" ["db", "employee_seq"]
        [PyVal.session 1, PyVal.vInt 5] []
        ⟨fun _ => some [("seq", PyVal.vInt 5), ("name", PyVal.vStr "kim")],
          Except.ok PyVal.none, "ts"⟩ =
      (Except.ok (PyVal.none,
        ⟨PyVal.vInt 5, "DELETE",
          some "\x7b\"name\": \"kim\", \"seq\": 5\x7d", Option.none,
          PyVal.none, "ts"⟩),
       ⟨1, 1, 1⟩) :=
  history_delete_record "employee" ["db", "employee_seq"]
    [PyVal.session 1, PyVal.vInt 5] []
    (fun _ => some [("seq", PyVal.vInt 5), ("name", PyVal.vStr "kim")]) "ts"
    PyVal.none 1 rfl rfl

/-- C7 counterexample: with the keyword argument employee_seq present
but equal to 0, the resolution does not stop at that first match (as
the claim's resolution order dictates) — it falls through and returns
the attribute of a positional object instead. -/
theorem extract_entity_seq_order_counterexample :
    extract_entity_seq "employee" [PyVal.obj [("employee_seq", PyVal.vInt 7)]]
        [("employee_seq", PyVal.vInt 0)] ["dto", "employee_seq"] = PyVal.vInt 7 ∧
    extract_entity_seq_spec "employee" [PyVal.obj [("employee_seq", PyVal.vInt 7)]]
        [("employee_seq", PyVal.vInt 0)] ["dto", "employee_seq"] =
      some (PyVal.vInt 0) ∧
    PyVal.vInt 7 ≠ PyVal.vInt 0 := by
  refine ⟨rfl, rfl, fun h => ?_⟩
  injection h with h2
  exact absurd h2 (by decide)

/-- C7 (amended): the identifier is resolved by trying, in this exact
order, the keyword argument `{entity}_seq`, the positional argument at
the declared index of that parameter, and a scan of the positional
arguments for the first object exposing that attribute — but a
candidate only wins if it is truthy: the first truthy candidate is the
result, and when no candidate is truthy the result is falsy (a
no-identifier value such as None or 0). -/
theorem extract_entity_seq_first_truthy (entity : String) (args : List PyVal)
    (kwargs : List (String × PyVal)) (paramNames : List String) :
    (∀ v, (seqCandidates entity args kwargs paramNames).find? truthy = some v →
      extract_entity_seq entity args kwargs paramNames = v) ∧
    ((seqCandidates entity args kwargs paramNames).find? truthy = Option.none →
      truthy (extract_entity_seq entity args kwargs paramNames) = false) := by
  unfold extract_entity_seq seqCandidates
  by_cases h1 : truthy ((kwargs.lookup (entity ++ "_seq")).getD PyVal.none)
  · simp only [List.find?_cons_of_pos _ h1, h1, Bool.not_true, Bool.false_and,
      Bool.false_eq_true, if_false, Option.some.injEq]
    exact ⟨fun v hv => hv, fun hv => absurd hv (by simp)⟩
  · have h1f : truthy ((kwargs.lookup (entity ++ "_seq")).getD PyVal.none) = false := by
      simpa using h1
    simp only [List.find?_cons_of_neg _ h1, h1f, Bool.not_false, Bool.true_and]
    by_cases hcb : paramNames.contains (entity ++ "_seq")
    · by_cases hidx : paramNames.findIdx (· == (entity ++ "_seq")) < args.length
      · rw [if_pos ⟨hcb, hidx⟩]
        simp only [hcb, if_true, hidx, List.cons_append]
        by_cases h2 : truthy (args.getD (paramNames.findIdx (· == (entity ++ "_seq"))) PyVal.none)
        · simp only [List.find?_cons_of_pos _ h2, h2, Bool.not_true, Bool.false_eq_true,
            if_false, Option.some.injEq]
          exact ⟨fun v hv => hv, fun hv => absurd hv (by simp)⟩
        · have h2f : truthy (args.getD (paramNames.findIdx (· == (entity ++ "_seq"))) PyVal.none) = false := by
            simpa using h2
          simp only [List.find?_cons_of_neg _ h2, h2f, Bool.not_false, if_true]
          cases hscan : args.find? (fun a => (pyGetAttr a (entity ++ "_seq")).isSome) with
          | none =>
            simp only [List.nil_append, List.find?_nil]
            exact ⟨fun v hv => Option.noConfusion hv, fun _ => h2f⟩
          | some a =>
            have hpa := List.find?_some (p := fun a => (pyGetAttr a (entity ++ "_seq")).isSome) hscan
            obtain ⟨w, hw⟩ := Option.isSome_iff_exists.mp hpa
            simp only [hw, Option.getD_some, List.nil_append]
            by_cases h3 : truthy w
            · simp only [List.find?_cons_of_pos _ h3, Option.some.injEq]
              exact ⟨fun v hv => hv, fun hv => absurd hv (by simp)⟩
            · have h3f : truthy w = false := by simpa using h3
              simp only [List.find?_cons_of_neg _ h3, List.find?_nil]
              exact ⟨fun v hv => Option.noConfusion hv, fun _ => h3f⟩
      · rw [if_neg (fun hand => hidx hand.2)]
        simp only [hcb, if_true, hidx, if_false, List.nil_append]
        cases hscan : args.find? (fun a => (pyGetAttr a (entity ++ "_seq")).isSome) with
        | none =>
          simp only [List.find?_nil]
          refine ⟨fun v hv => Option.noConfusion hv, fun _ => ?_⟩
          simp [h1f]
        | some a =>
          have hpa := List.find?_some (p := fun a => (pyGetAttr a (entity ++ "_seq")).isSome) hscan
          obtain ⟨w, hw⟩ := Option.isSome_iff_exists.mp hpa
          simp only [hw, Option.getD_some, h1f, Bool.not_false, if_true]
          by_cases h3 : truthy w
          · simp only [List.find?_cons_of_pos _ h3, Option.some.injEq]
            exact ⟨fun v hv => hv, fun hv => absurd hv (by simp)⟩
          · have h3f : truthy w = false := by simpa using h3
            simp only [List.find?_cons_of_neg _ h3, List.find?_nil]
            exact ⟨fun v hv => Option.noConfusion hv, fun _ => h3f⟩
    · have hcbf : paramNames.contains (entity ++ "_seq") = false := by simpa using hcb
      rw [if_neg (fun hand => hcb hand.1)]
      simp only [hcbf, Bool.and_false, Bool.false_eq_true, if_false, List.nil_append]
      cases hscan : args.find? (fun a => (pyGetAttr a (entity ++ "_seq")).isSome) with
      | none =>
        simp only [List.find?_nil]
        refine ⟨fun v hv => Option.noConfusion hv, fun _ => ?_⟩
        simp [h1f]
      | some a =>
        have hpa := List.find?_some (p := fun a => (pyGetAttr a (entity ++ "_seq")).isSome) hscan
        obtain ⟨w, hw⟩ := Option.isSome_iff_exists.mp hpa
        simp only [hw, Option.getD_some, h1f, Bool.not_false, if_true]
        by_cases h3 : truthy w
        · simp only [List.find?_cons_of_pos _ h3, Option.some.injEq]
          exact ⟨fun v hv => hv, fun hv => absurd hv (by simp)⟩
        · have h3f : truthy w = false := by simpa using h3
          simp only [List.find?_cons_of_neg _ h3, List.find?_nil]
          exact ⟨fun v hv => Option.noConfusion hv, fun _ => h3f⟩

/-- Concrete run of the amended resolution: a truthy keyword argument
is the first truthy candidate and wins. -/
theorem extract_entity_seq_first_truthy_witness :
    extract_entity_seq "employee" [] [("employee_seq", PyVal.vInt 3)] [] =
      PyVal.vInt 3 :=
  (extract_entity_seq_first_truthy "employee" []
    [("employee_seq", PyVal.vInt 3)] []).1 (PyVal.vInt 3) rfl

/-- Updating a task's slot twice keeps only the last value. -/
theorem updateAt_updateAt {α : Type} (f : TaskId → α) (t : TaskId) (a b : α) :
    updateAt (updateAt f t a) t b = updateAt f t b := by
  funext u
  by_cases h : u = t <;> simp [updateAt, h]

/-- Updating a task's slot with the value it already holds is the
identity. -/
theorem updateAt_self {α : Type} (f : TaskId → α) (t : TaskId) {v : α}
    (h : f t = v) : updateAt f t v = f := by
  funext u
  by_cases hu : u = t
  · subst hu; simp [updateAt, h]
  · simp [updateAt, hu]

/-- A context operation executed by another task changes none of the
three slots of task `t`. -/
theorem applyCtxOp_other_task (s : ContextState) (t u : TaskId) (op : CtxOp)
    (hne : u ≠ t) :
    (applyCtxOp s u op).loggerVar t = s.loggerVar t ∧
    (applyCtxOp s u op).slowLoggerVar t = s.slowLoggerVar t ∧
    (applyCtxOp s u op).traceIdVar t = s.traceIdVar t := by
  have hnt : t ≠ u := fun h => hne h.symm
  cases op <;>
    simp [applyCtxOp, RequestLoggingContext.set, RequestLoggingContext.set_slow,
      RequestLoggingContext.clear, updateAt, hnt]

/-- C2: the per-request logging context is execution-unit-local: any
sequence of `set`, `set_slow`, `clear` or in-place adapter mutations
performed by other tasks leaves the values task `t` observes through
`get`, `get_slow` and `get_trace_id` unchanged. -/
theorem request_context_isolation (s : ContextState) (t : TaskId)
    (ops : List (TaskId × CtxOp)) (h : ∀ p ∈ ops, p.1 ≠ t) :
    RequestLoggingContext.get (runCtxOps s ops) t =
      RequestLoggingContext.get s t ∧
    RequestLoggingContext.get_slow (runCtxOps s ops) t =
      RequestLoggingContext.get_slow s t ∧
    RequestLoggingContext.get_trace_id (runCtxOps s ops) t =
      RequestLoggingContext.get_trace_id s t := by
  induction ops generalizing s with
  | nil => exact ⟨rfl, rfl, rfl⟩
  | cons p rest ih =>
    have hp : p.1 ≠ t := h p (List.mem_cons_self _ _)
    have hstep := applyCtxOp_other_task s t p.1 p.2 hp
    have ihh := ih (applyCtxOp s p.1 p.2) (fun q hq => h q (List.mem_cons_of_mem _ hq))
    refine ⟨ihh.1.trans ?_, ihh.2.1.trans ?_, ihh.2.2.trans ?_⟩
    · exact hstep.1
    · exact hstep.2.1
    · simp only [RequestLoggingContext.get_trace_id, hstep.2.2]

/-- Concrete isolation run: another task installing a logger does not
change the trace id task 0 observes. -/
theorem request_context_isolation_witness :
    RequestLoggingContext.get_trace_id
        (runCtxOps sampleContext
          [(1, CtxOp.set (mkAdapter "employee" []) Option.none "u1".toList)]) 0 =
      RequestLoggingContext.get_trace_id sampleContext 0 :=
  (request_context_isolation sampleContext 0
      [(1, CtxOp.set (mkAdapter "employee" []) Option.none "u1".toList)]
      (by
        intro p hp
        rw [List.mem_singleton] at hp
        subst hp
        decide)).2.2

/-- C9: without an active request context the before-execute hook is a
silent no-op (the `LookupError` is caught), and a slow-query detection
still emits one entry through the ad hoc fallback adapter on the
dedicated "slow_query" logger with trace id "unknown" — neither hook
surfaces an error. -/
theorem sql_hooks_no_context_degradation (s : ContextState) (t : TaskId)
    (ev : SqlEvent) (stmt : String) (params : PyVal) (ms : ℚ) (nowStr : String)
    (hlog : s.loggerVar t = Option.none)
    (hslow : s.slowLoggerVar t = Option.none) :
    before_cursor_execute s t ev = s ∧
    (log_slow_query s t stmt params ms nowStr).loggerName = "slow_query" ∧
    (log_slow_query s t stmt params ms nowStr).event.traceId = "unknown".toList ∧
    (log_slow_query s t stmt params ms nowStr).event.logType = "SLOW_QUERY" ∧
    (log_slow_query s t stmt params ms nowStr).event.sql = some [(stmt, params)] ∧
    (log_slow_query s t stmt params ms nowStr).event.durationMs = some ms := by
  refine ⟨?_, ?_, ?_, ?_, ?_, ?_⟩ <;>
    simp [before_cursor_execute, RequestLoggingContext.get, hlog, log_slow_query,
      RequestLoggingContext.get_slow, hslow, slow_sql_structured, build_extra,
      mkAdapter]

/-- Concrete contextless run: nothing is buffered and the fallback
slow-query emission still happens on the dedicated logger. -/
theorem sql_hooks_no_context_degradation_witness :
    before_cursor_execute sampleContext 0 ⟨"SELECT 1", PyVal.none, false⟩ =
      sampleContext ∧
    (log_slow_query sampleContext 0 "SELECT 1" PyVal.none 2500 "ts").loggerName =
      "slow_query" :=
  ⟨(sql_hooks_no_context_degradation sampleContext 0
      ⟨"SELECT 1", PyVal.none, false⟩ "SELECT 1" PyVal.none 2500 "ts" rfl rfl).1,
   (sql_hooks_no_context_degradation sampleContext 0
      ⟨"SELECT 1", PyVal.none, false⟩ "SELECT 1" PyVal.none 2500 "ts" rfl rfl).2.1⟩

/-- C8: the after-execute hook emits exactly one slow-query entry iff
the measured elapsed time reaches the threshold; the entry carries the
elapsed milliseconds rounded to two decimals and the statement with its
parameters; the emission is independent of the per-request SQL buffer
(the main logger slot); and the configured default threshold is 2.0
seconds. -/
theorem after_execute_slow_query_emission (s : ContextState) (t : TaskId)
    (th : ℚ) (qs : Option ℚ) (now : ℚ) (stmt : String) (params : PyVal)
    (nowStr : String) :
    ((after_cursor_execute s t th qs now stmt params nowStr).length =
      if th ≤ now - qs.getD now then 1 else 0) ∧
    (∀ em ∈ after_cursor_execute s t th qs now stmt params nowStr,
      em.event.logType = "SLOW_QUERY" ∧
      em.event.durationMs = some (round2 ((now - qs.getD now) * 1000)) ∧
      em.event.sql = some [(stmt, params)]) ∧
    (∀ f, after_cursor_execute { s with loggerVar := f } t th qs now stmt
        params nowStr =
      after_cursor_execute s t th qs now stmt params nowStr) ∧
    SLOW_QUERY_THRESHOLD_default = 2 := by
  refine ⟨?_, ?_, fun f => rfl, rfl⟩
  · by_cases hth : th ≤ now - qs.getD now
    · simp [after_cursor_execute, hth]
    · simp [after_cursor_execute, hth]
  · intro em hem
    by_cases hth : th ≤ now - qs.getD now
    · simp only [after_cursor_execute, if_pos hth, List.mem_singleton] at hem
      subst hem
      cases hsl : s.slowLoggerVar t <;>
        simp [log_slow_query, RequestLoggingContext.get_slow, hsl,
          slow_sql_structured, build_extra, mkAdapter]
    · simp [after_cursor_execute, hth] at hem

/-- Concrete slow query: threshold 2s, elapsed 3s, exactly one emission
carrying 3000.00 ms. -/
theorem after_execute_slow_query_emission_witness :
    (after_cursor_execute sampleContext 0 2 (some 0) 3 "SELECT 1" PyVal.none
        "ts").length = 1 ∧
    (after_cursor_execute sampleContext 0 2 (some 0) 3 "SELECT 1" PyVal.none
        "ts").map (fun em => em.event.durationMs) = [some 3000] := by
  constructor
  · rw [(after_execute_slow_query_emission sampleContext 0 2 (some 0) 3
      "SELECT 1" PyVal.none "ts").1]
    norm_num
  · norm_num [after_cursor_execute, log_slow_query, RequestLoggingContext.get_slow,
      sampleContext, slow_sql_structured, build_extra, mkAdapter, round2]

/-- Folding `sql_structured` over a parameter-set list only appends the
corresponding entries to the buffer. -/
theorem foldl_sql_structured (ps : List PyVal) (lg : Adapter) (stmt : String) :
    ps.foldl (fun l p => sql_structured l stmt p) lg =
      { lg with sqlLogs := lg.sqlLogs ++ ps.map (fun p => (stmt, p)) } := by
  induction ps generalizing lg with
  | nil => simp
  | cons p rest ih =>
    simp only [List.foldl_cons, List.map_cons]
    rw [ih]
    simp [sql_structured]

/-- One hook buffering step only appends the execution's entries. -/
theorem bufferInto_eq (lg : Adapter) (ev : SqlEvent) :
    bufferInto lg ev = { lg with sqlLogs := lg.sqlLogs ++ entriesOf ev } := by
  unfold bufferInto entriesOf
  by_cases he : ev.executemany
  · simp [he, foldl_sql_structured]
  · simp [he, sql_structured]

/-- Running the before-execute hook over a list of executions appends
exactly the buffered entries to the adapter installed for task `t` and
touches nothing else. -/
theorem runBuffer (t : TaskId) (evs : List SqlEvent) (s : ContextState)
    (lg : Adapter) (h : s.loggerVar t = some lg) :
    evs.foldl (fun st ev => before_cursor_execute st t ev) s =
      { s with
          loggerVar := updateAt s.loggerVar t
            (some { lg with sqlLogs := lg.sqlLogs ++ bufferedEntries evs }) } := by
  induction evs generalizing s lg with
  | nil =>
    have h2 : ({ lg with sqlLogs := lg.sqlLogs ++ bufferedEntries [] } : Adapter) = lg := by
      simp [bufferedEntries]
    rw [List.foldl_nil, h2, updateAt_self _ _ h]
  | cons ev rest ih =>
    have hstep : before_cursor_execute s t ev =
        { s with loggerVar := updateAt s.loggerVar t (some (bufferInto lg ev)) } := by
      simp [before_cursor_execute, RequestLoggingContext.get, h]
    have hslot : ({ s with
          loggerVar := updateAt s.loggerVar t
            (some (bufferInto lg ev)) } : ContextState).loggerVar t =
        some (bufferInto lg ev) := by
      simp [updateAt]
    rw [List.foldl_cons, hstep, ih _ _ hslot]
    simp only [updateAt_updateAt, bufferInto_eq]
    have hbuf : bufferedEntries (ev :: rest) = entriesOf ev ++ bufferedEntries rest := by
      simp [bufferedEntries]
    rw [hbuf]
    simp [List.append_assoc]

/-- Symbolic execution of the interceptor's success path: the handshake
installs the domain logger and the cloned slow logger under the
8-character trace id, the context trace-id variable ends at the uuid
generated inside `set_slow`, the buffered statements land in the
terminal emission, and the response carries the trace id header. -/
theorem custom_handler_ok_eq {E : Type} (s0 : ContextState) (t : TaskId)
    (gen : Nat → TraceId) (t0 t1 : ℚ) (nowStr : String)
    (method path domain handlerName : String) (sqlExec : List SqlEvent)
    (statusCode : Nat) :
    custom_handler (E := E) s0 t gen t0 t1 nowStr method path domain
        handlerName sqlExec (Except.ok statusCode) =
      (Except.ok
        ⟨statusCode, (gen 0).take 8,
          ⟨domain,
            ⟨(gen 0).take 8, "START", method, path,
              (if handlerName == "" then "unnamed_handler" else handlerName),
              some statusCode, some (round2 ((t1 - t0) * 1000)), nowStr,
              Option.none, some (bufferedEntries sqlExec)⟩⟩,
          Option.none⟩,
        ⟨updateAt s0.loggerVar t
            (some ⟨domain, (gen 0).take 8, bufferedEntries sqlExec, method, path,
              (if handlerName == "" then "unnamed_handler" else handlerName),
              Option.none⟩),
          updateAt s0.slowLoggerVar t
            (some ⟨"slow_query", (gen 0).take 8, [], method, path,
              (if handlerName == "" then "unnamed_handler" else handlerName),
              Option.none⟩),
          updateAt s0.traceIdVar t (some (gen 2))⟩) := by
  unfold custom_handler
  simp only [RequestLoggingContext.set, RequestLoggingContext.set_slow]
  rw [runBuffer t sqlExec _
    (start_structured (mkAdapter domain ((gen 0).take 8)) method path handlerName)
    (by simp [updateAt])]
  simp [RequestLoggingContext.get, updateAt_updateAt, updateAt, mkAdapter,
    clone_with_logger, start_structured, end_structured, build_extra]

/-- C1: on the interceptor's success path, the X-Trace-Id header value
is the 8-character trace id generated at request entry; the terminal
consolidated log event carries that same trace id and exactly the SQL
entries buffered during the request; the event goes to the domain
logger; and the primary and slow adapters installed in the context
carry that same trace id, so every entry buffered through them and
every log emission of the request is stamped with it. -/
theorem trace_id_consistency {E : Type} (s0 : ContextState) (t : TaskId)
    (gen : Nat → TraceId) (t0 t1 : ℚ) (nowStr : String)
    (method path domain handlerName : String) (sqlExec : List SqlEvent)
    (statusCode : Nat) :
    ((custom_handler (E := E) s0 t gen t0 t1 nowStr method path domain
        handlerName sqlExec (Except.ok statusCode)).1.toOption.map
      (fun o => o.headerTraceId) = some ((gen 0).take 8)) ∧
    ((custom_handler (E := E) s0 t gen t0 t1 nowStr method path domain
        handlerName sqlExec (Except.ok statusCode)).1.toOption.map
      (fun o => o.endEmission.event.traceId) = some ((gen 0).take 8)) ∧
    ((custom_handler (E := E) s0 t gen t0 t1 nowStr method path domain
        handlerName sqlExec (Except.ok statusCode)).1.toOption.map
      (fun o => o.endEmission.event.sql) = some (some (bufferedEntries sqlExec))) ∧
    ((custom_handler (E := E) s0 t gen t0 t1 nowStr method path domain
        handlerName sqlExec (Except.ok statusCode)).1.toOption.map
      (fun o => o.endEmission.loggerName) = some domain) ∧
    (((custom_handler (E := E) s0 t gen t0 t1 nowStr method path domain
        handlerName sqlExec (Except.ok statusCode)).2.loggerVar t).map
      Adapter.traceId = some ((gen 0).take 8)) ∧
    (((custom_handler (E := E) s0 t gen t0 t1 nowStr method path domain
        handlerName sqlExec (Except.ok statusCode)).2.slowLoggerVar t).map
      Adapter.traceId = some ((gen 0).take 8)) := by
  rw [custom_handler_ok_eq]
  simp [Except.toOption, updateAt]

/-- C10: after the interceptor's handshake the trace id stored in the
context variable is the full 36-character uuid generated inside
`set_slow` (the third uuid of the request), which differs from the
8-character trace id carried by the response header and by the
installed logger — `get_trace_id()` does not return the request's
logging trace id. -/
theorem context_trace_id_mismatch {E : Type} (s0 : ContextState) (t : TaskId)
    (gen : Nat → TraceId) (t0 t1 : ℚ) (nowStr : String)
    (method path domain handlerName : String) (sqlExec : List SqlEvent)
    (statusCode : Nat) (hlen : ∀ n, (gen n).length = 36) :
    RequestLoggingContext.get_trace_id
        (custom_handler (E := E) s0 t gen t0 t1 nowStr method path domain
          handlerName sqlExec (Except.ok statusCode)).2 t = gen 2 ∧
    (gen 2).length = 36 ∧
    ((custom_handler (E := E) s0 t gen t0 t1 nowStr method path domain
        handlerName sqlExec (Except.ok statusCode)).1.toOption.map
      (fun o => o.headerTraceId) = some ((gen 0).take 8)) ∧
    ((gen 0).take 8).length = 8 ∧
    gen 2 ≠ (gen 0).take 8 ∧
    (((custom_handler (E := E) s0 t gen t0 t1 nowStr method path domain
        handlerName sqlExec (Except.ok statusCode)).2.loggerVar t).map
      Adapter.traceId = some ((gen 0).take 8)) := by
  have hne : gen 2 ≠ (gen 0).take 8 := by
    intro he
    have hl := congrArg List.length he
    rw [hlen 2, List.length_take, hlen 0] at hl
    norm_num at hl
  have hlen8 : ((gen 0).take 8).length = 8 := by
    rw [List.length_take, hlen 0]
    norm_num
  rw [custom_handler_ok_eq]
  refine ⟨?_, hlen 2, ?_, hlen8, hne, ?_⟩ <;>
    simp [RequestLoggingContext.get_trace_id, updateAt, Except.toOption]

/-- Concrete run with a fixed 36-character uuid stream: the stored
context trace id differs from the header's 8-character trace id. -/
theorem context_trace_id_mismatch_witness :
    RequestLoggingContext.get_trace_id
        (custom_handler (E := Unit) sampleContext 0 sampleGen 0 1 "ts" "GET"
          "/v1/employee" "employee" "get_employees" [] (Except.ok 200)).2 0 ≠
      (sampleGen 0).take 8 := by
  have main := context_trace_id_mismatch (E := Unit) sampleContext 0 sampleGen
    0 1 "ts" "GET" "/v1/employee" "employee" "get_employees" [] 200
    (fun _ => rfl)
  rw [main.1]
  exact main.2.2.2.2.1

end OrgTrace
